import Mathlib

/-!
Verification development for the hyperswitch-cdk cross-stack parameter
exchange and migration-trigger lifecycle.

The definitions below are a shallow embedding of:
* `ParamStore.PARAM_BASE` / `ParamStore.create` (parameter path builder),
* `ImportedVpc.FromSSM` and its private helpers (selective SSM import),
* the migration Lambda (`getDatabaseCredentials`, `runMigrations`,
  `performMigrations`, `createMigrationResource`, `updateMigrationResource`,
  `deleteMigrationResource`, `handler` from
  `lib/aws/migrations/index.ts`, shipped via `migration-runner.Dockerfile`).

JavaScript-specific behaviour is modelled explicitly: an absent (`undefined`)
value is an `Option`, template-literal interpolation of `undefined` produces
the string `"undefined"`, `x || y` on a string/number tests JS falsiness
(absent, empty string, zero).
-/

/-- A segment passed to `PARAM_BASE`: `none` models a JS `undefined` entry,
`some s` an actual string. -/
def Seg := Option String

/-- JS truthiness of a `string | undefined` value, as tested by
`(key) => !!key` in `PARAM_BASE`: `undefined` and `""` are falsy. -/
def segTruthy : Option String → Bool
  | none => false
  | some s => !s.isEmpty

/-- `Array.prototype.join('/')`: intercalate the separator `"/"`. -/
def joinSlash : List String → String
  | [] => ""
  | [x] => x
  | x :: y :: ys => x ++ "/" ++ joinSlash (y :: ys)

/-- The surviving string segments after the `filter((key) => !!key)` step. -/
def truthySegs (keys : List (Option String)) : List String :=
  (keys.filter segTruthy).map (fun o => o.getD "")

/-- `ParamStore.PARAM_BASE(...keys)`:
`'/' + [...keys].filter((key) => !!key).join('/')`. -/
def PARAM_BASE (keys : List (Option String)) : String :=
  "/" ++ joinSlash (truthySegs keys)

/-- `ParamStore.create(...params)`: `new ParamStore("ashanti", ...params)`,
whose `value` is `PARAM_BASE("ashanti", ...params)`. -/
def ParamStore.create (params : List String) : String :=
  PARAM_BASE ((("ashanti" : String) :: params).map some)

/-- The path builder with an explicit namespace argument, as used by
`createWithEnv` / `create`: all arguments are genuine strings. -/
def buildPath (ns : String) (segs : List String) : String :=
  PARAM_BASE ((ns :: segs).map some)

/-! SSM parameter names used by `ImportedVpc.FromSSM` (from `VpcParamStore`). -/

def SSM_VPC_ID_PARAM : String := ParamStore.create ["vpc", "id"]
def SSM_VPC_CIDR_PARAM : String := ParamStore.create ["vpc", "cidr"]
def SSM_VPC_AZS_PARAM : String := ParamStore.create ["vpc", "azs"]
def SSM_VPC_PUBLIC_SUBNET_IDS_PARAM : String :=
  ParamStore.create ["vpc", "public", "subnet", "ids"]
def SSM_VPC_PUBLIC_SUBNET_ROUTE_TABLE_IDS_PARAM : String :=
  ParamStore.create ["vpc", "public", "subnet", "route-table", "ids"]
def SSM_VPC_PUBLIC_SUBNET_IPV4_CIDR_BLOCKS_PARAM : String :=
  ParamStore.create ["vpc", "public", "subnet", "cidr-blocks"]
def SSM_VPC_PRIVATE_SUBNET_IDS_PARAM : String :=
  ParamStore.create ["vpc", "private", "subnet", "ids"]
def SSM_VPC_PRIVATE_SUBNET_ROUTE_TABLE_IDS_PARAM : String :=
  ParamStore.create ["vpc", "private", "subnet", "route-table", "ids"]
def SSM_VPC_PRIVATE_SUBNET_IPV4_CIDR_BLOCKS_PARAM : String :=
  ParamStore.create ["vpc", "private", "subnet", "cidr-blocks"]
def SSM_VPC_ISOLATED_SUBNET_IDS_PARAM : String :=
  ParamStore.create ["vpc", "isolated", "subnet", "ids"]
def SSM_VPC_ISOLATED_SUBNET_ROUTE_TABLE_IDS_PARAM : String :=
  ParamStore.create ["vpc", "isolated", "subnet", "route-table", "ids"]
def SSM_VPC_ISOLATED_SUBNET_IPV4_CIDR_BLOCKS_PARAM : String :=
  ParamStore.create ["vpc", "isolated", "subnet", "cidr-blocks"]

/-! ## ImportedVpc (`lib/aws/constructs/imported-vpc.ts`) -/

/-- The external SSM registry as seen at synth time: a lookup for string
parameters and one for string-list parameters. -/
structure Registry where
  str : String → String
  strList : String → List String

/-- `Fn.select(i, list)`: positional selection from a list parameter. -/
def fnSelect (i : Nat) (l : List String) : String := l.getD i ""

/-- `ImportedVpcProps`: every field is optional (`undefined` when absent),
defaults are applied by destructuring inside `FromSSM`. -/
structure ImportedVpcProps where
  maxAzs : Option Nat := none
  includeVpcCidr : Option Bool := none
  includePublicSubnets : Option Bool := none
  includePublicSubnetRouteTables : Option Bool := none
  includePublicSubnetCidrs : Option Bool := none
  includePrivateSubnets : Option Bool := none
  includePrivateSubnetRouteTables : Option Bool := none
  includePrivateSubnetCidrs : Option Bool := none
  includeIsolatedSubnets : Option Bool := none
  includeIsolatedSubnetRouteTables : Option Bool := none
  includeIsolatedSubnetCidrs : Option Bool := none

/-- The attribute record handed to `ec2.Vpc.fromVpcAttributes`. A field that
the source leaves `undefined` is `none`. -/
structure VpcAttributes where
  vpcId : String
  availabilityZones : List String
  vpcCidrBlock : Option String
  privateSubnetIds : Option (List String)
  privateSubnetRouteTableIds : Option (List String)
  privateSubnetIpv4CidrBlocks : Option (List String)
  publicSubnetIds : Option (List String)
  publicSubnetRouteTableIds : Option (List String)
  publicSubnetIpv4CidrBlocks : Option (List String)
  isolatedSubnetIds : Option (List String)
  isolatedSubnetRouteTableIds : Option (List String)
  isolatedSubnetIpv4CidrBlocks : Option (List String)

/-- `ImportedVpc.valueForStringParameter`: skip the registry read entirely
when `inc` is false; also return the list of parameter names read. -/
def ImportedVpc.valueForStringParameter (reg : Registry) (inc : Bool)
    (parameterName : String) : Option String × List String :=
  if inc then (some (reg.str parameterName), [parameterName]) else (none, [])

/-- `ImportedVpc.valueForStringListParameter`: skip the registry read when
`inc` is false, otherwise read the list parameter and select the first
`maxAzs` entries; also return the list of parameter names read. -/
def ImportedVpc.valueForStringListParameter (reg : Registry) (inc : Bool)
    (maxAzs : Nat) (parameterName : String) : Option (List String) × List String :=
  if inc then
    (some ((List.range maxAzs).map (fun i => fnSelect i (reg.strList parameterName))),
      [parameterName])
  else (none, [])

/-- `ImportedVpc.FromSSM`: resolve the required attributes (vpc id,
availability zones) unconditionally and each optional attribute only when its
include flag (defaulting to true) is set; returns the attribute record and
the registry reads in program order. -/
def ImportedVpc.FromSSM (reg : Registry) (props : ImportedVpcProps) :
    VpcAttributes × List String :=
  let maxAzs := props.maxAzs.getD 1
  let includeVpcCidr := props.includeVpcCidr.getD true
  let includePublicSubnets := props.includePublicSubnets.getD true
  let includePublicSubnetRouteTables := props.includePublicSubnetRouteTables.getD true
  let includePublicSubnetCidrs := props.includePublicSubnetCidrs.getD true
  let includePrivateSubnets := props.includePrivateSubnets.getD true
  let includePrivateSubnetRouteTables := props.includePrivateSubnetRouteTables.getD true
  let includePrivateSubnetCidrs := props.includePrivateSubnetCidrs.getD true
  let includeIsolatedSubnets := props.includeIsolatedSubnets.getD true
  let includeIsolatedSubnetRouteTables := props.includeIsolatedSubnetRouteTables.getD true
  let includeIsolatedSubnetCidrs := props.includeIsolatedSubnetCidrs.getD true
  let vpcId := reg.str SSM_VPC_ID_PARAM
  let availabilityZonesParam := reg.strList SSM_VPC_AZS_PARAM
  let availabilityZones := (List.range maxAzs).map (fun i => fnSelect i availabilityZonesParam)
  let cidr := ImportedVpc.valueForStringParameter reg includeVpcCidr SSM_VPC_CIDR_PARAM
  let privIds := ImportedVpc.valueForStringListParameter reg includePrivateSubnets maxAzs
    SSM_VPC_PRIVATE_SUBNET_IDS_PARAM
  let privRts := ImportedVpc.valueForStringListParameter reg includePrivateSubnetRouteTables maxAzs
    SSM_VPC_PRIVATE_SUBNET_ROUTE_TABLE_IDS_PARAM
  let privCidrs := ImportedVpc.valueForStringListParameter reg includePrivateSubnetCidrs maxAzs
    SSM_VPC_PRIVATE_SUBNET_IPV4_CIDR_BLOCKS_PARAM
  let pubIds := ImportedVpc.valueForStringListParameter reg includePublicSubnets maxAzs
    SSM_VPC_PUBLIC_SUBNET_IDS_PARAM
  let pubRts := ImportedVpc.valueForStringListParameter reg includePublicSubnetRouteTables maxAzs
    SSM_VPC_PUBLIC_SUBNET_ROUTE_TABLE_IDS_PARAM
  let pubCidrs := ImportedVpc.valueForStringListParameter reg includePublicSubnetCidrs maxAzs
    SSM_VPC_PUBLIC_SUBNET_IPV4_CIDR_BLOCKS_PARAM
  let isoIds := ImportedVpc.valueForStringListParameter reg includeIsolatedSubnets maxAzs
    SSM_VPC_ISOLATED_SUBNET_IDS_PARAM
  let isoRts := ImportedVpc.valueForStringListParameter reg includeIsolatedSubnetRouteTables maxAzs
    SSM_VPC_ISOLATED_SUBNET_ROUTE_TABLE_IDS_PARAM
  let isoCidrs := ImportedVpc.valueForStringListParameter reg includeIsolatedSubnetCidrs maxAzs
    SSM_VPC_ISOLATED_SUBNET_IPV4_CIDR_BLOCKS_PARAM
  (⟨vpcId, availabilityZones, cidr.1,
    privIds.1, privRts.1, privCidrs.1,
    pubIds.1, pubRts.1, pubCidrs.1,
    isoIds.1, isoRts.1, isoCidrs.1⟩,
   [SSM_VPC_ID_PARAM, SSM_VPC_AZS_PARAM] ++ cidr.2
     ++ privIds.2 ++ privRts.2 ++ privCidrs.2
     ++ pubIds.2 ++ pubRts.2 ++ pubCidrs.2
     ++ isoIds.2 ++ isoRts.2 ++ isoCidrs.2)

/-! ## Migration Lambda (`lib/aws/migrations/index.ts`) -/

/-- The optional fields of the JSON object stored in the database secret.
A field absent from the JSON object is `none` (JS `undefined`). -/
structure ParsedSecret where
  host : Option String := none
  port : Option Nat := none
  username : Option String := none
  password : Option String := none
  dbname : Option String := none

/-- The content of a fetched `SecretString`, represented by its
`JSON.parse` outcome: either a string `JSON.parse` rejects, or a JSON
object carrying the optional credential fields. -/
inductive SecretContent where
  | notJson
  | json (s : ParsedSecret)

/-- `DatabaseCredentials` as built by `getDatabaseCredentials`: `port` has
been stringified; the other fields are copied verbatim from the parsed JSON
and may therefore still be `undefined`. -/
structure DatabaseCredentials where
  host : Option String
  port : String
  username : Option String
  password : Option String
  dbname : Option String

/-- `MigrationResult.metadata` (`Record<string, any>`): empty on the early
file-existence failures, populated after a tool invocation. -/
structure MigMetadata where
  migration_count : Option Nat := none
  return_code : Option Int := none

/-- `MigrationResult` returned by `runMigrations`. -/
structure MigrationResult where
  success : Bool
  output : String
  metadata : MigMetadata

/-- The `Data` payload of a `ProviderResponse` (`Record<string, any>`):
fields the code does not set are absent (`none`). -/
structure RespData where
  message : String
  version : Option String := none
  output : Option String := none
  migration_count : Option Nat := none
  return_code : Option Int := none

/-- The CDK Provider response format. -/
structure ProviderResponse where
  PhysicalResourceId : String
  Data : Option RespData

/-- The fields of the Lambda `Context` the handler reads. -/
structure LambdaContext where
  logStreamName : String

/-- The fields of the CloudFormation custom-resource event the handler
reads. `RequestType` is the raw string tag; `PhysicalResourceId` is present
only on Update/Delete events. -/
structure LifecycleEvent where
  RequestType : String
  PhysicalResourceId : Option String := none

/-- Outcome of the external `diesel migration run` process for a given
`DATABASE_URL`: on success `execSync` yields the captured stdout; on failure
the thrown error optionally carries stdout, stderr and an exit status. -/
inductive DieselOutcome where
  | success (stdout : String)
  | failure (stdout : Option String) (stderr : Option String) (status : Option Int)

/-- `DieselOutcome.isFailure` -/
def DieselOutcome.isFailure : DieselOutcome → Bool
  | .success _ => false
  | .failure _ _ _ => true

/-- The environment one Lambda invocation runs in: process environment,
secret store, the runner image's filesystem, and the external migration
tool's behaviour. `secretStore` returns `.error` when the secrets-manager
call itself throws, `.ok none` when the response has no `SecretString`, and
`.ok (some c)` when a secret string with content `c` is returned. -/
structure World where
  dbSecretArnEnv : Option String
  hyperswitchVersionEnv : Option String
  secretStore : String → Except String (Option SecretContent)
  migrationsDirExists : Bool
  dieselTomlExists : Bool
  migrationsEntries : List (String × Bool)
  diesel : String → DieselOutcome

/-- Count of side effects performed by one handler invocation. -/
structure Effects where
  credentialResolutions : Nat
  toolRuns : Nat
deriving DecidableEq, Repr

/-- Template-literal interpolation of a `string | undefined` value: JS
renders `undefined` as the string `"undefined"`. -/
def jsInterp : Option String → String
  | none => "undefined"
  | some s => s

/-- JS `x || d` on an optional number: `undefined`/`null` and `0` are falsy
and fall through to the default. -/
def jsOrNat (x : Option Nat) (d : Nat) : Nat :=
  match x with
  | none => d
  | some n => if n = 0 then d else n

/-- JS `x || d` on an optional exit status (`error.status || -1`). -/
def jsOrInt (x : Option Int) (d : Int) : Int :=
  match x with
  | none => d
  | some n => if n = 0 then d else n

/-- `getDatabaseCredentials(secretArn)`: fetch the secret, throw
`"Secret value is empty"` when the response has no `SecretString`,
propagate a `JSON.parse` failure, otherwise copy the fields with
`port: String(credentials.port || 5432)`. -/
def getDatabaseCredentials (store : String → Except String (Option SecretContent))
    (secretArn : String) : Except String DatabaseCredentials :=
  match store secretArn with
  | .error e => .error e
  | .ok none => .error "Secret value is empty"
  | .ok (some .notJson) => .error "Unexpected token in JSON"
  | .ok (some (.json c)) =>
    .ok { host := c.host
          port := toString (jsOrNat c.port 5432)
          username := c.username
          password := c.password
          dbname := c.dbname }

/-- The captured output in the `catch` branch of `runMigrations`:
`error.stdout?.toString() || "" + "\n" + (error.stderr?.toString() || "")`.
By JS precedence this is stdout when it is defined and non-empty, and
otherwise `"\n"` followed by stderr (or by nothing). -/
def failureOutput (stdout stderr : Option String) : String :=
  match stdout with
  | some s => if s.isEmpty then "\n" ++ stderr.getD "" else s
  | none => "\n" ++ stderr.getD ""

/-- `runMigrations(databaseUrl)`: fail early when the migrations directory
or `diesel.toml` is absent (no tool run), otherwise count the migration
directories, invoke the tool and classify the outcome. Also returns the
number of tool invocations performed (0 or 1). -/
def runMigrations (w : World) (databaseUrl : String) : MigrationResult × Nat :=
  if !w.migrationsDirExists then
    ({ success := false, output := "Migrations directory not found", metadata := {} }, 0)
  else if !w.dieselTomlExists then
    ({ success := false, output := "diesel.toml not found", metadata := {} }, 0)
  else
    let migrationCount := (w.migrationsEntries.filter (fun e => e.2)).length
    match w.diesel databaseUrl with
    | .success out =>
      ({ success := true, output := out,
         metadata := { migration_count := some migrationCount, return_code := some 0 } }, 1)
    | .failure so se st =>
      ({ success := false, output := failureOutput so se,
         metadata := { migration_count := some migrationCount,
                       return_code := some (jsOrInt st (-1)) } }, 1)

/-- The `DATABASE_URL` template literal in `performMigrations`. -/
def databaseUrl (c : DatabaseCredentials) : String :=
  "postgresql://" ++ jsInterp c.username ++ ":" ++ jsInterp c.password ++ "@"
    ++ jsInterp c.host ++ ":" ++ c.port ++ "/" ++ jsInterp c.dbname

/-- `performMigrations(context)`: require `DB_SECRET_ARN`, resolve
credentials, build the url, run the migrations; on success answer with the
log-stream name as physical id and the data payload, on failure throw
`Migration failed: <output>`. Paired with the side-effect counts. -/
def performMigrations (w : World) (context : LambdaContext) :
    Except String ProviderResponse × Effects :=
  match w.dbSecretArnEnv with
  | none =>
    (.error "DB_SECRET_ARN environment variable not set",
     { credentialResolutions := 0, toolRuns := 0 })
  | some dbSecretArn =>
    match getDatabaseCredentials w.secretStore dbSecretArn with
    | .error e => (.error e, { credentialResolutions := 1, toolRuns := 0 })
    | .ok dbCreds =>
      let result := runMigrations w (databaseUrl dbCreds)
      if result.1.success then
        (.ok { PhysicalResourceId := context.logStreamName
               Data := some { message := "Migrations completed successfully"
                              version := some (w.hyperswitchVersionEnv.getD "unknown")
                              output := some result.1.output
                              migration_count := result.1.metadata.migration_count
                              return_code := result.1.metadata.return_code } },
         { credentialResolutions := 1, toolRuns := result.2 })
      else
        (.error ("Migration failed: " ++ result.1.output),
         { credentialResolutions := 1, toolRuns := result.2 })

/-- `createMigrationResource`: run migrations. -/
def createMigrationResource (w : World) (_event : LifecycleEvent)
    (context : LambdaContext) : Except String ProviderResponse × Effects :=
  performMigrations w context

/-- `updateMigrationResource`: run migrations (the event, including its
prior `PhysicalResourceId`, is ignored). -/
def updateMigrationResource (w : World) (_event : LifecycleEvent)
    (context : LambdaContext) : Except String ProviderResponse × Effects :=
  performMigrations w context

/-- `deleteMigrationResource`: no action; answer with the event's physical
id when present and truthy, else the log-stream name. -/
def deleteMigrationResource (event : LifecycleEvent)
    (context : LambdaContext) : ProviderResponse :=
  { PhysicalResourceId :=
      match event.PhysicalResourceId with
      | some s => if s.isEmpty then context.logStreamName else s
      | none => context.logStreamName
    Data := some { message := "Delete completed - migrations are not reverted" } }

/-- The Lambda `handler`: three-way switch on `RequestType` with no default
branch — any other tag falls through and the function returns `undefined`
(`.ok none`) having performed no effect. -/
def handler (w : World) (event : LifecycleEvent) (context : LambdaContext) :
    Except String (Option ProviderResponse) × Effects :=
  if event.RequestType = "Create" then
    let r := createMigrationResource w event context
    (r.1.map some, r.2)
  else if event.RequestType = "Update" then
    let r := updateMigrationResource w event context
    (r.1.map some, r.2)
  else if event.RequestType = "Delete" then
    (.ok (some (deleteMigrationResource event context)),
     { credentialResolutions := 0, toolRuns := 0 })
  else
    (.ok none, { credentialResolutions := 0, toolRuns := 0 })

/-! ## Sample environments used as concrete instances -/

/-- A secret store whose secret is a fully-populated credentials object,
matching Scenario D of the spec. -/
def fullSecret : ParsedSecret where
  host := some "db"
  port := some 5432
  username := some "u"
  password := some "p"
  dbname := some "hs"

def storeFull : String → Except String (Option SecretContent) :=
  fun _ => .ok (some (.json fullSecret))

/-- A secret store whose secret parses as JSON but carries none of the
credential fields. -/
def storeEmptyJson : String → Except String (Option SecretContent) :=
  fun _ => .ok (some (.json {}))

/-- An environment in which everything is in place and the migration tool
succeeds. -/
def worldOk : World where
  dbSecretArnEnv := some "arn:aws:secretsmanager:db-secret"
  hyperswitchVersionEnv := some "v1.119.0"
  secretStore := storeFull
  migrationsDirExists := true
  dieselTomlExists := true
  migrationsEntries := [("2023-01-01_init", true), ("README.md", false), ("2023-02-02_add", true)]
  diesel := fun _ => .success "Running migration 2023-01-01_init"

/-- Like `worldOk` but the migration tool exits non-zero with only stderr
captured (Scenario E). -/
def worldFail : World :=
  { worldOk with diesel := fun _ => .failure none (some "relation already exists") (some 1) }

/-- An environment with a malformed secret (valid JSON, no credential
fields) and no version tag in the environment; the tool itself succeeds. -/
def worldMalformed : World where
  dbSecretArnEnv := some "arn:aws:secretsmanager:db-secret"
  hyperswitchVersionEnv := none
  secretStore := storeEmptyJson
  migrationsDirExists := true
  dieselTomlExists := true
  migrationsEntries := []
  diesel := fun _ => .success "ok"

/-- Lifecycle events and a Lambda context used as concrete instances. -/
def evCreate : LifecycleEvent := { RequestType := "Create" }

def evUpdate : LifecycleEvent := { RequestType := "Update", PhysicalResourceId := some "prior-id" }

def evDelete : LifecycleEvent := { RequestType := "Delete", PhysicalResourceId := some "prior-id" }

def evDirect : LifecycleEvent := { RequestType := "Direct" }

def ctx0 : LambdaContext := { logStreamName := "2024/01/01/[$LATEST]abc" }

/-! ## Character-level join machinery for path injectivity -/

/-- `joinD` is `joinSlash` at the level of character lists. -/
def joinD : List (List Char) → List Char
  | [] => []
  | [x] => x
  | x :: y :: ys => x ++ '/' :: joinD (y :: ys)

/-- Parts that are non-empty and free of the separator character. -/
def okParts (l : List (List Char)) : Prop := ∀ x ∈ l, x ≠ [] ∧ '/' ∉ x

/-- Strings that are non-empty and free of the separator character. -/
def okStrs (l : List String) : Prop := ∀ s ∈ l, s ≠ "" ∧ '/' ∉ s.data

/-- A segment that, when present and non-empty, contains no separator. -/
def segOk : Option String → Bool
  | none => true
  | some s => decide ('/' ∉ s.data)

/-- All entries of a segment sequence are separator-free where present. -/
def okSegs (keys : List (Option String)) : Prop := ∀ o ∈ keys, segOk o = true

/-- Props requesting none of the optional VPC attributes. -/
def propsNone : ImportedVpcProps where
  maxAzs := some 2
  includeVpcCidr := some false
  includePublicSubnets := some false
  includePublicSubnetRouteTables := some false
  includePublicSubnetCidrs := some false
  includePrivateSubnets := some false
  includePrivateSubnetRouteTables := some false
  includePrivateSubnetCidrs := some false
  includeIsolatedSubnets := some false
  includeIsolatedSubnetRouteTables := some false
  includeIsolatedSubnetCidrs := some false

/-- An arbitrary concrete registry. -/
def regSample : Registry where
  str := fun _ => "token"
  strList := fun _ => ["az-1", "az-2"]

/-! ## Lemmas about the path builder -/

theorem sep_split : ∀ (as : List Char), '/' ∉ as → ∀ (bs : List Char), '/' ∉ bs →
    ∀ (x y : List Char), as ++ '/' :: x = bs ++ '/' :: y → as = bs ∧ x = y := by
  intro as
  induction as with
  | nil =>
    intro _ bs hb x y h
    cases bs with
    | nil =>
      rw [List.nil_append, List.nil_append] at h
      injection h with _ h2
      exact ⟨rfl, h2⟩
    | cons b bs' =>
      rw [List.nil_append, List.cons_append] at h
      injection h with h1 _
      cases h1
      exact absurd (List.mem_cons_self _ _) hb
  | cons a as' ih =>
    intro ha bs hb x y h
    cases bs with
    | nil =>
      rw [List.cons_append, List.nil_append] at h
      injection h with h1 _
      cases h1
      exact absurd (List.mem_cons_self _ _) ha
    | cons b bs' =>
      rw [List.cons_append, List.cons_append] at h
      injection h with h1 h2
      cases h1
      have ha' : '/' ∉ as' := fun hm => ha (List.mem_cons_of_mem _ hm)
      have hb' : '/' ∉ bs' := fun hm => hb (List.mem_cons_of_mem _ hm)
      obtain ⟨e1, e2⟩ := ih ha' bs' hb' x y h2
      exact ⟨by rw [e1], e2⟩

theorem joinD_inj : ∀ (l1 : List (List Char)), okParts l1 → ∀ (l2 : List (List Char)),
    okParts l2 → joinD l1 = joinD l2 → l1 = l2 := by
  intro l1
  induction l1 with
  | nil =>
    intro _ l2 hok2 h
    cases l2 with
    | nil => rfl
    | cons c cs =>
      exfalso
      cases cs with
      | nil =>
        simp only [joinD] at h
        exact (hok2 c (List.mem_cons_self _ _)).1 h.symm
      | cons d ds =>
        simp only [joinD] at h
        have := (List.append_eq_nil.mp h.symm).2
        exact absurd this (by simp)
  | cons a l1' ih =>
    intro hok1 l2 hok2 h
    cases l2 with
    | nil =>
      exfalso
      cases l1' with
      | nil =>
        simp only [joinD] at h
        exact (hok1 a (List.mem_cons_self _ _)).1 h
      | cons b bs =>
        simp only [joinD] at h
        have := (List.append_eq_nil.mp h).2
        exact absurd this (by simp)
    | cons c cs =>
      cases l1' with
      | nil =>
        cases cs with
        | nil =>
          simp only [joinD] at h
          rw [h]
        | cons d ds =>
          exfalso
          simp only [joinD] at h
          have hsl : '/' ∈ c ++ '/' :: joinD (d :: ds) :=
            List.mem_append_right _ (List.mem_cons_self _ _)
          rw [← h] at hsl
          exact (hok1 a (List.mem_cons_self _ _)).2 hsl
      | cons b bs =>
        cases cs with
        | nil =>
          exfalso
          simp only [joinD] at h
          have hsl : '/' ∈ a ++ '/' :: joinD (b :: bs) :=
            List.mem_append_right _ (List.mem_cons_self _ _)
          rw [h] at hsl
          exact (hok2 c (List.mem_cons_self _ _)).2 hsl
        | cons d ds =>
          simp only [joinD] at h
          obtain ⟨e1, e2⟩ := sep_split a (hok1 a (List.mem_cons_self _ _)).2 c
            (hok2 c (List.mem_cons_self _ _)).2 _ _ h
          have hok1' : okParts (b :: bs) := fun x hx => hok1 x (List.mem_cons_of_mem _ hx)
          have hok2' : okParts (d :: ds) := fun x hx => hok2 x (List.mem_cons_of_mem _ hx)
          have := ih hok1' (d :: ds) hok2' e2
          rw [e1, this]

theorem empty_string_data : ("" : String).data = [] := rfl

theorem slash_string_data : ("/" : String).data = ['/'] := rfl

theorem joinSlash_data : ∀ l : List String, (joinSlash l).data = joinD (l.map String.data) := by
  intro l
  induction l with
  | nil => rfl
  | cons x xs ih =>
    cases xs with
    | nil => rfl
    | cons y ys =>
      show (x ++ "/" ++ joinSlash (y :: ys)).data = x.data ++ '/' :: joinD ((y :: ys).map String.data)
      rw [String.data_append, String.data_append, ih, slash_string_data]
      simp [List.append_assoc]

theorem string_append_cancel_left {a b c : String} (h : a ++ b = a ++ c) : b = c := by
  apply String.ext
  have hd := congrArg String.data h
  rw [String.data_append, String.data_append] at hd
  exact List.append_cancel_left hd

theorem string_data_eq_nil {s : String} (h : s.data = []) : s = "" :=
  String.ext (h.trans empty_string_data.symm)

theorem joinSlash_inj (l1 l2 : List String) (h1 : okStrs l1) (h2 : okStrs l2)
    (h : joinSlash l1 = joinSlash l2) : l1 = l2 := by
  have hd : joinD (l1.map String.data) = joinD (l2.map String.data) := by
    rw [← joinSlash_data, ← joinSlash_data, h]
  have ok1 : okParts (l1.map String.data) := by
    intro x hx
    obtain ⟨s, hs, rfl⟩ := List.mem_map.mp hx
    exact ⟨fun hnil => (h1 s hs).1 (string_data_eq_nil hnil), (h1 s hs).2⟩
  have ok2 : okParts (l2.map String.data) := by
    intro x hx
    obtain ⟨s, hs, rfl⟩ := List.mem_map.mp hx
    exact ⟨fun hnil => (h2 s hs).1 (string_data_eq_nil hnil), (h2 s hs).2⟩
  have hmap := joinD_inj _ ok1 _ ok2 hd
  exact List.map_injective_iff.mpr (fun _ _ hab => String.ext hab) hmap

theorem truthySegs_map_some (l : List String) :
    truthySegs (l.map some) = l.filter (fun s => !s.isEmpty) := by
  unfold truthySegs
  rw [List.filter_map, List.map_map]
  have h1 : (segTruthy ∘ some : String → Bool) = fun s => !s.isEmpty := rfl
  have h2 : ((fun o => Option.getD o "") ∘ some : String → String) = id := rfl
  rw [h1, h2, List.map_id]

theorem mem_truthySegs {keys : List (Option String)} {x : String}
    (hx : x ∈ truthySegs keys) : x ≠ "" ∧ some x ∈ keys := by
  unfold truthySegs at hx
  obtain ⟨o, ho, rfl⟩ := List.mem_map.mp hx
  have hf : segTruthy o = true := List.of_mem_filter ho
  have hm : o ∈ keys := List.mem_of_mem_filter ho
  cases o with
  | none => simp [segTruthy] at hf
  | some s =>
    simp only [Option.getD_some]
    refine ⟨fun he => ?_, hm⟩
    rw [he] at hf
    exact absurd hf (by decide)

theorem okStrs_truthySegs {keys : List (Option String)} (hok : okSegs keys) :
    okStrs (truthySegs keys) := by
  intro s hs
  obtain ⟨hne, hmem⟩ := mem_truthySegs hs
  have hsegok := hok (some s) hmem
  simp only [segOk, decide_eq_true_eq] at hsegok
  exact ⟨hne, hsegok⟩

theorem truthySegs_filter (keys : List (Option String)) :
    truthySegs (keys.filter segTruthy) = truthySegs keys := by
  unfold truthySegs
  rw [List.filter_filter]
  simp

theorem PARAM_BASE_eq_iff {k1 k2 : List (Option String)} (h1 : okSegs k1) (h2 : okSegs k2) :
    PARAM_BASE k1 = PARAM_BASE k2 ↔ truthySegs k1 = truthySegs k2 := by
  constructor
  · intro h
    unfold PARAM_BASE at h
    exact joinSlash_inj _ _ (okStrs_truthySegs h1) (okStrs_truthySegs h2)
      (string_append_cancel_left h)
  · intro h
    unfold PARAM_BASE
    rw [h]

theorem buildPath_filter (ns : String) (segs : List String) :
    buildPath ns segs = "/" ++ joinSlash ((ns :: segs).filter (fun s => !s.isEmpty)) := by
  unfold buildPath PARAM_BASE
  rw [show ((ns :: segs).map some) = ((ns :: segs).map some) from rfl, truthySegs_map_some]

/-- C7 counterexample: with arbitrary non-empty segments the builder is not
injective — under the namespace `"ashanti"`, the distinct sequences
`["a/b"]` and `["a", "b"]` collapse to the same path. -/
theorem build_collision_on_slash_segment :
    buildPath "ashanti" ["a/b"] = buildPath "ashanti" ["a", "b"] ∧
    (["a/b"] : List String) ≠ ["a", "b"] :=
  ⟨by decide, by decide⟩

/-- C7 (amended): the path builder is injective over non-empty sequences of
non-empty segments, provided the segments do not contain the separator
character `'/'`: for s1 ≠ s2 under the same namespace,
`build(ns, s1) ≠ build(ns, s2)`. -/
theorem build_injective_on_slash_free (ns : String) (s1 s2 : List String)
    (hne1 : s1 ≠ []) (hne2 : s2 ≠ [])
    (ok1 : ∀ x ∈ s1, x ≠ "" ∧ '/' ∉ x.data)
    (ok2 : ∀ x ∈ s2, x ≠ "" ∧ '/' ∉ x.data)
    (hne : s1 ≠ s2) : buildPath ns s1 ≠ buildPath ns s2 := by
  intro h
  apply hne
  rw [buildPath_filter, buildPath_filter] at h
  have h' := string_append_cancel_left h
  have f1 : s1.filter (fun s => !s.isEmpty) = s1 :=
    List.filter_eq_self.mpr (fun x hx => by
      cases hemp : x.isEmpty with
      | true => exact absurd ((String.isEmpty_iff x).mp hemp) (ok1 x hx).1
      | false => simp [hemp])
  have f2 : s2.filter (fun s => !s.isEmpty) = s2 :=
    List.filter_eq_self.mpr (fun x hx => by
      cases hemp : x.isEmpty with
      | true => exact absurd ((String.isEmpty_iff x).mp hemp) (ok2 x hx).1
      | false => simp [hemp])
  rw [List.filter_cons, List.filter_cons, f1, f2] at h'
  cases hns : ns.isEmpty with
  | true =>
    rw [hns] at h'
    simp only [Bool.not_true, if_false] at h'
    exact joinSlash_inj s1 s2 ok1 ok2 h'
  | false =>
    rw [hns] at h'
    simp only [Bool.not_false, if_true] at h'
    obtain ⟨a, as, rfl⟩ := List.exists_cons_of_ne_nil hne1
    obtain ⟨b, bs, rfl⟩ := List.exists_cons_of_ne_nil hne2
    have h'' : joinSlash (a :: as) = joinSlash (b :: bs) := string_append_cancel_left h'
    exact joinSlash_inj _ _ ok1 ok2 h''

/-- Witness for the amended C7 theorem at a concrete instance. -/
theorem build_injective_on_slash_free_witness :
    buildPath "ashanti" ["rds", "endpoint"] ≠ buildPath "ashanti" ["rds", "sg-id"] :=
  build_injective_on_slash_free "ashanti" ["rds", "endpoint"] ["rds", "sg-id"]
    (by decide) (by decide) (by decide) (by decide) (by decide)

/-- C8 counterexample: the claimed biconditional "two built paths are equal
iff their filtered segment sequences are equal" fails when a segment may
contain the separator: `[some "x/y"]` and `[some "x", some "y"]` build the
same path but filter to different sequences. -/
theorem param_base_iff_fails :
    PARAM_BASE [some "x/y"] = PARAM_BASE [some "x", some "y"] ∧
    truthySegs [some "x/y"] ≠ truthySegs [some "x", some "y"] :=
  ⟨by decide, by decide⟩

/-- C8 (amended): `PARAM_BASE` filters out falsy (empty/undefined) segments,
joins the rest with `'/'` and prefixes `'/'`; it is invariant under
pre-filtering; path equality implies filtered-sequence equality only for
separator-free segments (and the converse holds unconditionally). -/
theorem param_base_build_spec (segs s1 s2 : List (Option String))
    (h1 : okSegs s1) (h2 : okSegs s2) :
    PARAM_BASE segs = "/" ++ joinSlash (truthySegs segs) ∧
    PARAM_BASE segs = PARAM_BASE (segs.filter segTruthy) ∧
    (PARAM_BASE s1 = PARAM_BASE s2 ↔ truthySegs s1 = truthySegs s2) := by
  refine ⟨rfl, ?_, PARAM_BASE_eq_iff h1 h2⟩
  unfold PARAM_BASE
  rw [truthySegs_filter]

/-- Witness for the amended C8 theorem at a concrete instance. -/
theorem param_base_build_spec_witness :
    PARAM_BASE [some "a", none, some ""] =
      "/" ++ joinSlash (truthySegs [some "a", none, some ""]) ∧
    PARAM_BASE [some "a", none, some ""] =
      PARAM_BASE (([some "a", none, some ""] : List (Option String)).filter segTruthy) ∧
    (PARAM_BASE [some "a"] = PARAM_BASE [none, some "a", some ""] ↔
      truthySegs [some "a"] = truthySegs [none, some "a", some ""]) :=
  param_base_build_spec [some "a", none, some ""] [some "a"] [none, some "a", some ""]
    (by unfold okSegs; decide) (by unfold okSegs; decide)

/-! ## Lemmas about the selective VPC import -/

theorem vpc_id_param_val : SSM_VPC_ID_PARAM = "/ashanti/vpc/id" := by decide

theorem vpc_cidr_param_val : SSM_VPC_CIDR_PARAM = "/ashanti/vpc/cidr" := by decide

theorem vpc_azs_param_val : SSM_VPC_AZS_PARAM = "/ashanti/vpc/azs" := by decide

theorem vpc_pub_ids_param_val :
    SSM_VPC_PUBLIC_SUBNET_IDS_PARAM = "/ashanti/vpc/public/subnet/ids" := by decide

theorem vpc_pub_rts_param_val :
    SSM_VPC_PUBLIC_SUBNET_ROUTE_TABLE_IDS_PARAM = "/ashanti/vpc/public/subnet/route-table/ids" := by
  decide

theorem vpc_pub_cidrs_param_val :
    SSM_VPC_PUBLIC_SUBNET_IPV4_CIDR_BLOCKS_PARAM = "/ashanti/vpc/public/subnet/cidr-blocks" := by
  decide

theorem vpc_priv_ids_param_val :
    SSM_VPC_PRIVATE_SUBNET_IDS_PARAM = "/ashanti/vpc/private/subnet/ids" := by decide

theorem vpc_priv_rts_param_val :
    SSM_VPC_PRIVATE_SUBNET_ROUTE_TABLE_IDS_PARAM = "/ashanti/vpc/private/subnet/route-table/ids" := by
  decide

theorem vpc_priv_cidrs_param_val :
    SSM_VPC_PRIVATE_SUBNET_IPV4_CIDR_BLOCKS_PARAM = "/ashanti/vpc/private/subnet/cidr-blocks" := by
  decide

theorem vpc_iso_ids_param_val :
    SSM_VPC_ISOLATED_SUBNET_IDS_PARAM = "/ashanti/vpc/isolated/subnet/ids" := by decide

theorem vpc_iso_rts_param_val :
    SSM_VPC_ISOLATED_SUBNET_ROUTE_TABLE_IDS_PARAM = "/ashanti/vpc/isolated/subnet/route-table/ids" := by
  decide

theorem vpc_iso_cidrs_param_val :
    SSM_VPC_ISOLATED_SUBNET_IPV4_CIDR_BLOCKS_PARAM = "/ashanti/vpc/isolated/subnet/cidr-blocks" := by
  decide

theorem mem_ite_singleton {x p : String} {c : Bool} :
    (x ∈ if c = true then [p] else ([] : List String)) ↔ (c = true ∧ x = p) := by
  cases c <;> simp

theorem vfsp_snd (reg : Registry) (inc : Bool) (n : String) :
    (ImportedVpc.valueForStringParameter reg inc n).2 = if inc = true then [n] else [] := by
  unfold ImportedVpc.valueForStringParameter
  split <;> rfl

theorem vfslp_snd (reg : Registry) (inc : Bool) (m : Nat) (n : String) :
    (ImportedVpc.valueForStringListParameter reg inc m n).2 = if inc = true then [n] else [] := by
  unfold ImportedVpc.valueForStringListParameter
  split <;> rfl

theorem vfsp_fst_none (reg : Registry) (n : String) :
    (ImportedVpc.valueForStringParameter reg false n).1 = none := rfl

theorem vfslp_fst_none (reg : Registry) (m : Nat) (n : String) :
    (ImportedVpc.valueForStringListParameter reg false m n).1 = none := rfl

/-- C9: an optional VPC attribute whose include flag is `false` is never
resolved against the registry (its parameter name does not occur among the
registry reads) and is absent (`none`) from the returned attribute record;
each of the ten optional attributes only adds its own read when requested. -/
theorem imported_vpc_selective (reg : Registry) (props : ImportedVpcProps) :
    (props.includeVpcCidr = some false →
      (ImportedVpc.FromSSM reg props).1.vpcCidrBlock = none ∧
      SSM_VPC_CIDR_PARAM ∉ (ImportedVpc.FromSSM reg props).2) ∧
    (props.includePrivateSubnets = some false →
      (ImportedVpc.FromSSM reg props).1.privateSubnetIds = none ∧
      SSM_VPC_PRIVATE_SUBNET_IDS_PARAM ∉ (ImportedVpc.FromSSM reg props).2) ∧
    (props.includePrivateSubnetRouteTables = some false →
      (ImportedVpc.FromSSM reg props).1.privateSubnetRouteTableIds = none ∧
      SSM_VPC_PRIVATE_SUBNET_ROUTE_TABLE_IDS_PARAM ∉ (ImportedVpc.FromSSM reg props).2) ∧
    (props.includePrivateSubnetCidrs = some false →
      (ImportedVpc.FromSSM reg props).1.privateSubnetIpv4CidrBlocks = none ∧
      SSM_VPC_PRIVATE_SUBNET_IPV4_CIDR_BLOCKS_PARAM ∉ (ImportedVpc.FromSSM reg props).2) ∧
    (props.includePublicSubnets = some false →
      (ImportedVpc.FromSSM reg props).1.publicSubnetIds = none ∧
      SSM_VPC_PUBLIC_SUBNET_IDS_PARAM ∉ (ImportedVpc.FromSSM reg props).2) ∧
    (props.includePublicSubnetRouteTables = some false →
      (ImportedVpc.FromSSM reg props).1.publicSubnetRouteTableIds = none ∧
      SSM_VPC_PUBLIC_SUBNET_ROUTE_TABLE_IDS_PARAM ∉ (ImportedVpc.FromSSM reg props).2) ∧
    (props.includePublicSubnetCidrs = some false →
      (ImportedVpc.FromSSM reg props).1.publicSubnetIpv4CidrBlocks = none ∧
      SSM_VPC_PUBLIC_SUBNET_IPV4_CIDR_BLOCKS_PARAM ∉ (ImportedVpc.FromSSM reg props).2) ∧
    (props.includeIsolatedSubnets = some false →
      (ImportedVpc.FromSSM reg props).1.isolatedSubnetIds = none ∧
      SSM_VPC_ISOLATED_SUBNET_IDS_PARAM ∉ (ImportedVpc.FromSSM reg props).2) ∧
    (props.includeIsolatedSubnetRouteTables = some false →
      (ImportedVpc.FromSSM reg props).1.isolatedSubnetRouteTableIds = none ∧
      SSM_VPC_ISOLATED_SUBNET_ROUTE_TABLE_IDS_PARAM ∉ (ImportedVpc.FromSSM reg props).2) ∧
    (props.includeIsolatedSubnetCidrs = some false →
      (ImportedVpc.FromSSM reg props).1.isolatedSubnetIpv4CidrBlocks = none ∧
      SSM_VPC_ISOLATED_SUBNET_IPV4_CIDR_BLOCKS_PARAM ∉ (ImportedVpc.FromSSM reg props).2) := by
  refine ⟨fun h => ⟨?_, ?_⟩, fun h => ⟨?_, ?_⟩, fun h => ⟨?_, ?_⟩, fun h => ⟨?_, ?_⟩,
    fun h => ⟨?_, ?_⟩, fun h => ⟨?_, ?_⟩, fun h => ⟨?_, ?_⟩, fun h => ⟨?_, ?_⟩,
    fun h => ⟨?_, ?_⟩, fun h => ⟨?_, ?_⟩⟩ <;>
  simp [ImportedVpc.FromSSM, vfsp_snd, vfslp_snd, vfsp_fst_none, vfslp_fst_none, h,
    mem_ite_singleton, vpc_id_param_val, vpc_cidr_param_val, vpc_azs_param_val,
    vpc_pub_ids_param_val, vpc_pub_rts_param_val, vpc_pub_cidrs_param_val,
    vpc_priv_ids_param_val, vpc_priv_rts_param_val, vpc_priv_cidrs_param_val,
    vpc_iso_ids_param_val, vpc_iso_rts_param_val, vpc_iso_cidrs_param_val]

/-- Witness for the C9 theorem: with every include flag false, each optional
attribute is absent and its parameter is not read. -/
theorem imported_vpc_selective_witness :
    ((ImportedVpc.FromSSM regSample propsNone).1.vpcCidrBlock = none ∧
      SSM_VPC_CIDR_PARAM ∉ (ImportedVpc.FromSSM regSample propsNone).2) ∧
    ((ImportedVpc.FromSSM regSample propsNone).1.privateSubnetIds = none ∧
      SSM_VPC_PRIVATE_SUBNET_IDS_PARAM ∉ (ImportedVpc.FromSSM regSample propsNone).2) ∧
    ((ImportedVpc.FromSSM regSample propsNone).1.isolatedSubnetIpv4CidrBlocks = none ∧
      SSM_VPC_ISOLATED_SUBNET_IPV4_CIDR_BLOCKS_PARAM ∉
        (ImportedVpc.FromSSM regSample propsNone).2) := by
  have t := imported_vpc_selective regSample propsNone
  exact ⟨t.1 rfl, t.2.1 rfl, t.2.2.2.2.2.2.2.2.2 rfl⟩

/-! ## Lemmas and claims about the migration Lambda -/

theorem handler_run (w : World) (e : LifecycleEvent) (ctx : LambdaContext)
    (he : e.RequestType = "Create" ∨ e.RequestType = "Update") :
    handler w e ctx = ((performMigrations w ctx).1.map some, (performMigrations w ctx).2) := by
  rcases he with h | h <;>
    simp [handler, h, createMigrationResource, updateMigrationResource]

/-- C1: a `Delete` lifecycle event yields a success response (never a thrown
error) with the no-action message, performing no credential resolution and
no migration tool run. -/
theorem delete_event_noop (w : World) (e : LifecycleEvent) (ctx : LambdaContext)
    (h : e.RequestType = "Delete") :
    (handler w e ctx).2 = { credentialResolutions := 0, toolRuns := 0 } ∧
    ∃ resp : ProviderResponse, (handler w e ctx).1 = .ok (some resp) ∧
      resp.Data = some { message := "Delete completed - migrations are not reverted" } :=
  ⟨by simp [handler, h], deleteMigrationResource e ctx, by simp [handler, h], rfl⟩

/-- Witness for the C1 theorem at a concrete Delete event. -/
theorem delete_event_noop_witness :
    (handler worldOk evDelete ctx0).2 = { credentialResolutions := 0, toolRuns := 0 } ∧
    ∃ resp : ProviderResponse, (handler worldOk evDelete ctx0).1 = .ok (some resp) ∧
      resp.Data = some { message := "Delete completed - migrations are not reverted" } :=
  delete_event_noop worldOk evDelete ctx0 rfl

/-- C10: an event whose `RequestType` is none of Create/Update/Delete falls
through the switch: no credential resolution, no tool run, no error, and no
response value (`undefined`). -/
theorem unknown_request_type_noop (w : World) (e : LifecycleEvent) (ctx : LambdaContext)
    (h1 : e.RequestType ≠ "Create") (h2 : e.RequestType ≠ "Update")
    (h3 : e.RequestType ≠ "Delete") :
    handler w e ctx = (.ok none, { credentialResolutions := 0, toolRuns := 0 }) := by
  simp [handler, h1, h2, h3]

/-- Witness for the C10 theorem at a direct invocation. -/
theorem unknown_request_type_noop_witness :
    handler worldOk evDirect ctx0 = (.ok none, { credentialResolutions := 0, toolRuns := 0 }) :=
  unknown_request_type_noop worldOk evDirect ctx0 (by decide) (by decide) (by decide)

theorem runMigrations_success (w : World) (url : String) :
    (runMigrations w url).1.success = false ↔
      (w.migrationsDirExists = false ∨ w.dieselTomlExists = false ∨
        (w.diesel url).isFailure = true) := by
  unfold runMigrations
  cases hm : w.migrationsDirExists <;> cases ht : w.dieselTomlExists <;>
    simp [hm, ht] <;> (cases hd : w.diesel url) <;>
      simp [hd, DieselOutcome.isFailure]

/-- C2: for a Create/Update event that reaches the migration step, the
handler throws `Migration failed: <captured output>` — an error whose
message contains the captured tool output — iff the run is unsuccessful
(the migrations directory or `diesel.toml` is absent, or the tool exits
non-zero); an unsuccessful run is never converted into a success response,
and a successful run yields a response instead of an error. -/
theorem migration_failure_error (w : World) (e : LifecycleEvent) (ctx : LambdaContext)
    (arn : String) (creds : DatabaseCredentials)
    (he : e.RequestType = "Create" ∨ e.RequestType = "Update")
    (harn : w.dbSecretArnEnv = some arn)
    (hcreds : getDatabaseCredentials w.secretStore arn = .ok creds) :
    ((runMigrations w (databaseUrl creds)).1.success = false ↔
      (w.migrationsDirExists = false ∨ w.dieselTomlExists = false ∨
        (w.diesel (databaseUrl creds)).isFailure = true)) ∧
    ((handler w e ctx).1 =
        .error ("Migration failed: " ++ (runMigrations w (databaseUrl creds)).1.output) ↔
      (runMigrations w (databaseUrl creds)).1.success = false) ∧
    ((runMigrations w (databaseUrl creds)).1.success = false →
      ∃ p, (handler w e ctx).1 = .error (p ++ (runMigrations w (databaseUrl creds)).1.output)) ∧
    ((runMigrations w (databaseUrl creds)).1.success = true →
      ∃ resp, (handler w e ctx).1 = .ok (some resp)) := by
  rw [handler_run w e ctx he]
  refine ⟨runMigrations_success w (databaseUrl creds), ?_, ?_, ?_⟩ <;>
    simp only [performMigrations, harn, hcreds] <;>
    cases hs : (runMigrations w (databaseUrl creds)).1.success <;>
      simp [hs, Except.map]
  exact ⟨"Migration failed: ", rfl⟩

/-- Witness for the C2 theorem: with the tool failing (stderr "relation
already exists"), the handler throws with the captured output in the
message. -/
theorem migration_failure_error_witness :
    (handler worldFail evCreate ctx0).1 =
      .error ("Migration failed: " ++ (runMigrations worldFail (databaseUrl
        { host := some "db", port := "5432", username := some "u",
          password := some "p", dbname := some "hs" })).1.output) := by
  have t := migration_failure_error worldFail evCreate ctx0 "arn:aws:secretsmanager:db-secret"
    { host := some "db", port := "5432", username := some "u",
      password := some "p", dbname := some "hs" }
    (Or.inl rfl) rfl rfl
  exact t.2.1.mpr rfl

/-- C3: for a Create/Update event whose tool invocation exits zero, the
handler returns a success response whose data payload carries the message,
the version, the tool output and the migration count — the number of
directories found locally in the migrations directory. -/
theorem migration_success_response (w : World) (e : LifecycleEvent) (ctx : LambdaContext)
    (arn : String) (creds : DatabaseCredentials) (out : String)
    (he : e.RequestType = "Create" ∨ e.RequestType = "Update")
    (harn : w.dbSecretArnEnv = some arn)
    (hcreds : getDatabaseCredentials w.secretStore arn = .ok creds)
    (hdir : w.migrationsDirExists = true) (htoml : w.dieselTomlExists = true)
    (hdiesel : w.diesel (databaseUrl creds) = .success out) :
    (handler w e ctx).1 = .ok (some
      { PhysicalResourceId := ctx.logStreamName
        Data := some { message := "Migrations completed successfully"
                       version := some (w.hyperswitchVersionEnv.getD "unknown")
                       output := some out
                       migration_count :=
                         some ((w.migrationsEntries.filter (fun en => en.2)).length)
                       return_code := some 0 } }) ∧
    (handler w e ctx).2 = { credentialResolutions := 1, toolRuns := 1 } := by
  rw [handler_run w e ctx he]
  constructor <;>
    simp [performMigrations, harn, hcreds, runMigrations, hdir, htoml, hdiesel, Except.map]

/-- Witness for the C3 theorem in a concrete succeeding environment with two
migration directories. -/
theorem migration_success_response_witness :
    (handler worldOk evCreate ctx0).1 = .ok (some
      { PhysicalResourceId := ctx0.logStreamName
        Data := some { message := "Migrations completed successfully"
                       version := some (worldOk.hyperswitchVersionEnv.getD "unknown")
                       output := some "Running migration 2023-01-01_init"
                       migration_count :=
                         some ((worldOk.migrationsEntries.filter (fun en => en.2)).length)
                       return_code := some 0 } }) ∧
    (handler worldOk evCreate ctx0).2 = { credentialResolutions := 1, toolRuns := 1 } :=
  migration_success_response worldOk evCreate ctx0 "arn:aws:secretsmanager:db-secret"
    { host := some "db", port := "5432", username := some "u",
      password := some "p", dbname := some "hs" }
    "Running migration 2023-01-01_init" (Or.inl rfl) rfl rfl rfl rfl rfl

/-- C4: from a secret record with all of host, port, username, password and
dbname present, the runner builds exactly
`postgresql://<username>:<password>@<host>:<port>/<dbname>`. -/
theorem database_url_format (store : String → Except String (Option SecretContent))
    (arn h u pw d : String) (p : Nat)
    (hstore : store arn = .ok (some (.json
      { host := some h, port := some p, username := some u,
        password := some pw, dbname := some d })))
    (hp : p ≠ 0) :
    getDatabaseCredentials store arn = .ok
      { host := some h, port := toString p, username := some u,
        password := some pw, dbname := some d } ∧
    databaseUrl { host := some h, port := toString p, username := some u,
                  password := some pw, dbname := some d } =
      "postgresql://" ++ u ++ ":" ++ pw ++ "@" ++ h ++ ":" ++ toString p ++ "/" ++ d := by
  constructor
  · simp [getDatabaseCredentials, hstore, jsOrNat, hp, Except.bind]
  · simp [databaseUrl, jsInterp]

/-- Witness for the C4 theorem: the record of Scenario D yields exactly
`postgresql://u:p@db:5432/hs`. -/
theorem database_url_format_witness :
    getDatabaseCredentials storeFull "arn:aws:secretsmanager:db-secret" = .ok
      { host := some "db", port := "5432", username := some "u",
        password := some "p", dbname := some "hs" } ∧
    databaseUrl { host := some "db", port := "5432", username := some "u",
                  password := some "p", dbname := some "hs" } = "postgresql://u:p@db:5432/hs" := by
  have t := database_url_format storeFull "arn:aws:secretsmanager:db-secret"
    "db" "u" "p" "hs" 5432 rfl (by decide)
  exact ⟨t.1, t.2.trans (by decide)⟩

/-- C5 counterexample: a malformed secret (valid JSON with none of the five
credential fields) together with an absent version tag does not abort the
run — credentials "resolve" with all fields undefined, a migration is
attempted, and the handler reports success. -/
theorem malformed_secret_still_runs :
    getDatabaseCredentials worldMalformed.secretStore "arn:aws:secretsmanager:db-secret" =
      .ok { host := none, port := "5432", username := none,
            password := none, dbname := none } ∧
    worldMalformed.hyperswitchVersionEnv = none ∧
    (handler worldMalformed evCreate ctx0).1 = .ok (some
      { PhysicalResourceId := "2024/01/01/[$LATEST]abc"
        Data := some { message := "Migrations completed successfully"
                       version := some "unknown"
                       output := some "ok"
                       migration_count := some 0
                       return_code := some 0 } }) ∧
    (handler worldMalformed evCreate ctx0).2 = { credentialResolutions := 1, toolRuns := 1 } :=
  ⟨rfl, rfl, rfl, rfl⟩

/-- C5 (amended): on Create/Update the run aborts with a fatal error and no
migration attempt precisely when the secret reference is absent, the secret
fetch fails, the secret value is empty, or the secret string is not valid
JSON; a JSON-parseable secret always resolves (missing fields included),
and an absent version tag is reported as "unknown" instead of failing. -/
theorem credential_failure_modes (w : World) (e : LifecycleEvent) (ctx : LambdaContext)
    (arn : String)
    (he : e.RequestType = "Create" ∨ e.RequestType = "Update") :
    (w.dbSecretArnEnv = none →
      (handler w e ctx).1 = .error "DB_SECRET_ARN environment variable not set" ∧
      (handler w e ctx).2 = { credentialResolutions := 0, toolRuns := 0 }) ∧
    ((∃ m, getDatabaseCredentials w.secretStore arn = .error m) ↔
      (w.secretStore arn = .ok none ∨ w.secretStore arn = .ok (some .notJson) ∨
        ∃ m, w.secretStore arn = .error m)) ∧
    (∀ m, w.dbSecretArnEnv = some arn →
      getDatabaseCredentials w.secretStore arn = .error m →
      (handler w e ctx).1 = .error m ∧ (handler w e ctx).2.toolRuns = 0) ∧
    (∀ s, w.secretStore arn = .ok (some (.json s)) →
      ∃ c, getDatabaseCredentials w.secretStore arn = .ok c) ∧
    (∀ c, w.hyperswitchVersionEnv = none → w.dbSecretArnEnv = some arn →
      getDatabaseCredentials w.secretStore arn = .ok c →
      (runMigrations w (databaseUrl c)).1.success = true →
      ∃ resp, (handler w e ctx).1 = .ok (some resp) ∧
        ∃ dta, resp.Data = some dta ∧ dta.version = some "unknown") := by
  refine ⟨?_, ?_, ?_, ?_, ?_⟩
  · intro h
    rw [handler_run w e ctx he]
    simp [performMigrations, h, Except.map]
  · unfold getDatabaseCredentials
    cases hres : w.secretStore arn with
    | error m => simp [hres]
    | ok o =>
      cases o with
      | none => simp [hres]
      | some c =>
        cases c with
        | notJson => simp [hres]
        | json s => simp [hres]
  · intro m harn hm
    rw [handler_run w e ctx he]
    simp [performMigrations, harn, hm, Except.map]
  · intro s hs
    unfold getDatabaseCredentials
    rw [hs]
    exact ⟨_, rfl⟩
  · intro c hv harn hc hs
    rw [handler_run w e ctx he]
    simp only [performMigrations, harn, hc, hs, Except.map, hv]
    exact ⟨_, rfl, _, rfl, rfl⟩

/-- Witness for the amended C5 theorem: the missing secret reference of a
concrete environment yields the fatal configuration error, and the
empty-JSON secret still resolves. -/
theorem credential_failure_modes_witness :
    ∃ c, getDatabaseCredentials worldMalformed.secretStore "arn:any" = .ok c := by
  have t := credential_failure_modes worldMalformed evCreate ctx0 "arn:any" (Or.inl rfl)
  exact t.2.2.2.1 {} rfl

/-- C6 counterexample: an Update event carrying the prior physical resource
id `"prior-id"` is answered with the Lambda log-stream name, not the prior
id — the physical resource id is not reused across Update. -/
theorem update_does_not_reuse_physical_id :
    evUpdate.PhysicalResourceId = some "prior-id" ∧
    (handler worldOk evUpdate ctx0).1 = .ok (some
      { PhysicalResourceId := "2024/01/01/[$LATEST]abc"
        Data := some { message := "Migrations completed successfully"
                       version := some "v1.119.0"
                       output := some "Running migration 2023-01-01_init"
                       migration_count := some 2
                       return_code := some 0 } }) ∧
    ("2024/01/01/[$LATEST]abc" : String) ≠ "prior-id" :=
  ⟨rfl, rfl, by decide⟩

/-- C6 (amended): on Update, any successful response carries the Lambda
context's log-stream name as its physical resource id (as on Create); the
event's prior physical resource id is ignored. -/
theorem update_physical_id_is_log_stream (w : World) (e : LifecycleEvent)
    (ctx : LambdaContext) (resp : ProviderResponse)
    (he : e.RequestType = "Update")
    (hok : (handler w e ctx).1 = .ok (some resp)) :
    resp.PhysicalResourceId = ctx.logStreamName := by
  rw [handler_run w e ctx (Or.inr he)] at hok
  unfold performMigrations at hok
  cases harn : w.dbSecretArnEnv with
  | none => simp [harn, Except.map] at hok
  | some arn =>
    simp only [harn] at hok
    cases hc : getDatabaseCredentials w.secretStore arn with
    | error m => simp [hc, Except.map] at hok
    | ok c =>
      simp only [hc] at hok
      cases hs : (runMigrations w (databaseUrl c)).1.success with
      | false => simp [hs, Except.map] at hok
      | true =>
        simp only [hs, if_true, Except.map, Except.ok.injEq, Option.some.injEq] at hok
        rw [← hok]

/-- Witness for the amended C6 theorem at a concrete successful Update. -/
theorem update_physical_id_is_log_stream_witness :
    ({ PhysicalResourceId := "2024/01/01/[$LATEST]abc"
       Data := some { message := "Migrations completed successfully"
                      version := some "v1.119.0"
                      output := some "Running migration 2023-01-01_init"
                      migration_count := some 2
                      return_code := some 0 } } : ProviderResponse).PhysicalResourceId =
      ctx0.logStreamName :=
  update_physical_id_is_log_stream worldOk evUpdate ctx0 _ rfl rfl
